import Mathlib

/-!
Verification development for the awless AWS session-bootstrap and
credential-cache subsystem (src/aws/init.go).

The Go source is shallowly embedded: the filesystem is an explicit state
value, the encoding/json codec for the four-string-field credential
snapshot is abstracted as a tagged content type (a cache file either holds
a well-formed encoding of a snapshot or malformed bytes), and the external
AWS SDK calls (session.NewSessionWithOptions, the underlying credential
chain Creds.Get()) are oracles carried in an explicit World record.
Every embedded function mirrors the corresponding Go function line by
line; external collaborators that the sources under verification do not
contain (awsconfig.IsValidRegion, the nine service constructors) are
modelled from the spec and marked as such in their doc comments.
-/

set_option autoImplicit false

namespace Awless

/-- Embedding of credentials.Value (the credential snapshot): four string
fields, zero value all empty. -/
structure CredValue where
  accessKeyID : String
  secretAccessKey : String
  sessionToken : String
  providerName : String
deriving DecidableEq

instance : Inhabited CredValue := ⟨⟨"", "", "", ""⟩⟩

/-- Abstraction of the bytes stored in the cache file: either the
well-formed JSON encoding of a credential snapshot (the image of
json.Marshal on a credentials.Value), or bytes that do not decode
(json.Unmarshal fails on them). -/
inductive JsonContent where
  | credJson (v : CredValue)
  | malformed (bytes : String)
deriving DecidableEq

/-- Embedding of json.Unmarshal into a credentials.Value: succeeds exactly
on well-formed encodings, recovering the encoded snapshot. -/
def jsonUnmarshal : JsonContent → Except String CredValue
  | JsonContent.credJson v => Except.ok v
  | JsonContent.malformed _ => Except.error ("invalid character in JSON credential cache")

/-- Embedding of json.Marshal on a credentials.Value. Encoding a struct of
four strings cannot fail in Go; the Except shape mirrors the error check
the source performs at init.go:170-173. -/
def jsonMarshal (v : CredValue) : Except String JsonContent :=
  Except.ok (JsonContent.credJson v)

/-- Filesystem state: files as (path, content, permission bits),
directories as (path, permission bits), plus fault-injection flags for
read and write failures of the ambient OS. -/
structure FS where
  files : List (String × JsonContent × Nat)
  dirs : List (String × Nat)
  readFails : Bool
  writeFails : Bool
deriving DecidableEq

/-- A filesystem operation, recorded in the trace that Retrieve emits. -/
inductive FsOp where
  | statDir (path : String)
  | mkdirAll (path : String)
  | statFile (path : String)
  | readFile (path : String)
  | writeFile (path : String)
deriving DecidableEq

/-- Association lookup of a file by path. -/
def fsLookup : List (String × JsonContent × Nat) → String → Option (JsonContent × Nat)
  | [], _ => none
  | (q, c, m) :: rest, p => if q = p then some (c, m) else fsLookup rest p

/-- Association lookup of a directory by path. -/
def dirLookup : List (String × Nat) → String → Option Nat
  | [], _ => none
  | (q, m) :: rest, p => if q = p then some m else dirLookup rest p

/-- Embedding of filepath.Join on two components. -/
def filepathJoin (a b : String) : String := a ++ "/" ++ b

/-- Embedding of init.go:147-149: os.Stat(credFolder) followed by
os.MkdirAll(credFolder, 0700) when the directory does not exist; the
MkdirAll error is ignored by the source. Returns the updated filesystem
and the operations performed. -/
def mkdirStep (fs : FS) (credFolder : String) : FS × List FsOp :=
  if (dirLookup fs.dirs credFolder).isNone then
    ({ fs with dirs := (credFolder, 0o700) :: fs.dirs },
      [FsOp.statDir credFolder, FsOp.mkdirAll credFolder])
  else
    (fs, [FsOp.statDir credFolder])

/-- The credentials directory under a given cache root (init.go:146). -/
def credFolderOf (cache : String) : String := filepathJoin cache ("credentials")

/-- The cache file path under a given cache root (init.go:150-151). -/
def credPathOf (cache : String) : String := filepathJoin (credFolderOf cache) ("aws.tmp")

/-- Embedding of (*FileCacheProvider).Retrieve (init.go:141-176).
The argument awlessCache is the value of os.Getenv("__AWLESS_CACHE")
(empty means unset, as in Go). The creds argument is the result the
underlying provider f.Creds.Get() would return. The result is the Go
return pair (value, error), the filesystem after the call, the trace of
filesystem operations performed, and the number of times the underlying
provider was invoked (0 or 1). -/
def FileCacheProvider.Retrieve (awlessCache : String) (fs : FS)
    (creds : CredValue × Option String) :
    (CredValue × Option String) × FS × List FsOp × Nat :=
  if awlessCache = "" then
    (creds, fs, [], 1)
  else
    let credFolder := filepathJoin awlessCache ("credentials")
    let step := mkdirStep fs credFolder
    let fs1 := step.1
    let ops1 := step.2
    let credFile := "aws.tmp"
    let credPath := filepathJoin credFolder credFile
    match fsLookup fs1.files credPath with
    | some (content, _) =>
      if fs1.readFails then
        ((default, some ("cache file read error")), fs1,
          ops1 ++ [FsOp.statFile credPath, FsOp.readFile credPath], 0)
      else
        match jsonUnmarshal content with
        | Except.ok v =>
          ((v, none), fs1,
            ops1 ++ [FsOp.statFile credPath, FsOp.readFile credPath], 0)
        | Except.error e =>
          ((default, some e), fs1,
            ops1 ++ [FsOp.statFile credPath, FsOp.readFile credPath], 0)
    | none =>
      match creds with
      | (credValue, some e) =>
        ((credValue, some e), fs1, ops1 ++ [FsOp.statFile credPath], 1)
      | (credValue, none) =>
        match jsonMarshal credValue with
        | Except.error e =>
          ((credValue, some e), fs1, ops1 ++ [FsOp.statFile credPath], 1)
        | Except.ok content =>
          if fs1.writeFails then
            ((credValue, some ("cache file write error")), fs1,
              ops1 ++ [FsOp.statFile credPath, FsOp.writeFile credPath], 1)
          else
            ((credValue, none),
              { fs1 with files := (credPath, content, 0o600) :: fs1.files },
              ops1 ++ [FsOp.statFile credPath, FsOp.writeFile credPath], 1)

/-- The HTTP transport of a session: either the client with a timeout of
the given number of seconds, or the default client of Go (no timeout). -/
inductive HTTPClient where
  | timeoutClient (seconds : Nat)
  | defaultClient
deriving DecidableEq

/-- Embedding of the SDK session: region, profile, the active HTTP
transport, and whether the FileCacheProvider wrapper has been installed as
the credential source (init.go:118-120). -/
structure Session where
  region : String
  profile : String
  httpClient : HTTPClient
  credsWrapped : Bool
deriving DecidableEq

/-- The ambient world of one bootstrap call: the cache-root environment
variable, the filesystem, the result the underlying credential chain
returns from Get(), and whether session.NewSessionWithOptions fails. -/
structure World where
  cacheEnv : String
  fs : FS
  provider : CredValue × Option String
  newSessionErr : Option String
deriving DecidableEq

/-- Oracle for the external SDK call session.NewSessionWithOptions
(init.go:112-117): the session is configured with the given region, an
HTTP client with a 2-second timeout, shared-config resolution and the
given profile; on failure the SDK returns a nil session together with the
error. -/
def NewSessionWithOptions (w : World) (region profile : String) :
    Option Session × Option String :=
  match w.newSessionErr with
  | some e => (none, some e)
  | none =>
    (some { region := region, profile := profile,
            httpClient := HTTPClient.timeoutClient 2, credsWrapped := false },
      none)

/-- Outcome of initAWSSession: a session, an error, or a nil-pointer
dereference (the runtime fault of writing a field of a nil session). -/
inductive InitOutcome where
  | ok (sess : Session)
  | err (msg : String)
  | nilDeref
deriving DecidableEq

/-- The user-facing authentication error message of init.go:127. -/
def credsUndefinedMsg : String :=
  "Your AWS credentials seem undefined! AWS_ACCESS_KEY_ID and AWS_SECRET_ACCESS_KEY need to be exported in your CLI environment\nInstallation documentation is at https://github.com/wallix/awless/wiki/Installation"

/-- Embedding of initAWSSession (init.go:111-132). The source assigns
session.Config.Credentials (init.go:118) BEFORE checking the error from
NewSessionWithOptions (init.go:122); on a nil session that assignment is a
nil dereference, so the nil case yields InitOutcome.nilDeref before the
error check is ever reached. The eager validation fetch (init.go:126)
goes through the installed FileCacheProvider, i.e. through
FileCacheProvider.Retrieve. Returns the outcome, the filesystem after the
call, and the number of underlying-provider invocations. -/
def initAWSSession (w : World) (region profile : String) :
    InitOutcome × FS × Nat :=
  match NewSessionWithOptions w region profile with
  | (none, _) => (InitOutcome.nilDeref, w.fs, 0)
  | (some sess, sessErr) =>
    let sess := { sess with credsWrapped := true }
    match sessErr with
    | some e => (InitOutcome.err e, w.fs, 0)
    | none =>
      match FileCacheProvider.Retrieve w.cacheEnv w.fs w.provider with
      | ((_, some _), fs1, _, calls) =>
        (InitOutcome.err credsUndefinedMsg, fs1, calls)
      | ((_, none), fs1, _, calls) =>
        (InitOutcome.ok { sess with httpClient := HTTPClient.defaultClient },
          fs1, calls)

/-- The configuration view consumed by InitServices: awsconf.region() and
awsconf.profile(). -/
structure AwsConf where
  region : String
  profile : String
deriving DecidableEq

/-- A constructed cloud-domain service: its declared name and a generation
tag distinguishing the construction it came from (fresh instances of
different InitServices calls carry different generations). -/
structure Service where
  name : String
  gen : Nat
deriving DecidableEq

/-- Modelled from the spec: the opaque constructor NewAccess(session,
config, logger) of the access domain service, declared name "access"; the
constructor itself is outside the sources under verification. -/
def NewAccess (_sess : Session) (gen : Nat) : Service := ⟨"access", gen⟩

/-- Modelled from the spec: the opaque constructor NewInfra, declared name
"infra". -/
def NewInfra (_sess : Session) (gen : Nat) : Service := ⟨"infra", gen⟩

/-- Modelled from the spec: the opaque constructor NewStorage, declared
name "storage". -/
def NewStorage (_sess : Session) (gen : Nat) : Service := ⟨"storage", gen⟩

/-- Modelled from the spec: the opaque constructor NewMessaging, declared
name "messaging". -/
def NewMessaging (_sess : Session) (gen : Nat) : Service := ⟨"messaging", gen⟩

/-- Modelled from the spec: the opaque constructor NewDns, declared name
"dns". -/
def NewDns (_sess : Session) (gen : Nat) : Service := ⟨"dns", gen⟩

/-- Modelled from the spec: the opaque constructor NewLambda, declared
name "lambda". -/
def NewLambda (_sess : Session) (gen : Nat) : Service := ⟨"lambda", gen⟩

/-- Modelled from the spec: the opaque constructor NewMonitoring, declared
name "monitoring". -/
def NewMonitoring (_sess : Session) (gen : Nat) : Service := ⟨"monitoring", gen⟩

/-- Modelled from the spec: the opaque constructor NewCdn, declared name
"cdn". -/
def NewCdn (_sess : Session) (gen : Nat) : Service := ⟨"cdn", gen⟩

/-- Modelled from the spec: the opaque constructor NewCloudformation,
declared name "cloudformation". -/
def NewCloudformation (_sess : Session) (gen : Nat) : Service := ⟨"cloudformation", gen⟩

/-- The process-wide service registry cloud.ServiceRegistry, as an
association list from service name to service instance. -/
abbrev Registry := List (String × Service)

/-- Go map assignment m[k] = v: replace the entry at k when present,
otherwise add it. -/
def mapSet (r : Registry) (k : String) (v : Service) : Registry :=
  if r.any (fun p => p.1 == k) then
    r.map (fun p => if p.1 = k then (k, v) else p)
  else
    r ++ [(k, v)]

/-- Go map lookup m[k]. -/
def mapGet : Registry → String → Option Service
  | [], _ => none
  | (q, v) :: rest, k => if q = k then some v else mapGet rest k

/-- Embedding of InitServices (init.go:43-76): reject an empty region, run
initAWSSession, construct the nine domain services with the validated
session, and assign each into the process-wide registry keyed by its
declared name (assignment order is that of init.go:65-73). Returns the
outcome, the filesystem after the call, the number of underlying-provider
invocations, and the registry after the call (the registry is unchanged on
any failure). -/
def InitServices (w : World) (conf : AwsConf) (gen : Nat) (reg : Registry) :
    InitOutcome × FS × Nat × Registry :=
  let region := conf.region
  if region = "" then
    (InitOutcome.err ("empty AWS region. Set it with `awless config set aws.region`"),
      w.fs, 0, reg)
  else
    match initAWSSession w region conf.profile with
    | (InitOutcome.nilDeref, fs1, calls) => (InitOutcome.nilDeref, fs1, calls, reg)
    | (InitOutcome.err e, fs1, calls) => (InitOutcome.err e, fs1, calls, reg)
    | (InitOutcome.ok sess, fs1, calls) =>
      let access := NewAccess sess gen
      let infra := NewInfra sess gen
      let storage := NewStorage sess gen
      let messaging := NewMessaging sess gen
      let dns := NewDns sess gen
      let lambdaSvc := NewLambda sess gen
      let monitoring := NewMonitoring sess gen
      let cdn := NewCdn sess gen
      let cloudformation := NewCloudformation sess gen
      let reg := mapSet reg infra.name infra
      let reg := mapSet reg access.name access
      let reg := mapSet reg storage.name storage
      let reg := mapSet reg messaging.name messaging
      let reg := mapSet reg dns.name dns
      let reg := mapSet reg lambdaSvc.name lambdaSvc
      let reg := mapSet reg monitoring.name monitoring
      let reg := mapSet reg cdn.name cdn
      let reg := mapSet reg cloudformation.name cloudformation
      (InitOutcome.ok sess, fs1, calls, reg)

/-- Modelled from the spec: awsconfig.IsValidRegion is not among the
sources under verification; the spec describes it as a static
region-identifier validity check involving no network — a region is valid
iff it is a recognized region identifier. -/
def IsValidRegion (region : String) : Bool :=
  ["us-east-1", "us-east-2", "us-west-1", "us-west-2",
   "ca-central-1", "eu-west-1", "eu-west-2", "eu-central-1",
   "ap-northeast-1", "ap-northeast-2", "ap-southeast-1", "ap-southeast-2",
   "ap-south-1", "sa-east-1"].any (fun r => r == region)

/-- Embedding of NewDriver (init.go:78-109) up to session establishment:
reject a region failing the static validity check before touching the
network, then run initAWSSession. The driver aggregation over the nine
services on the success path is an external collaborator per the spec and
is not modelled beyond the session outcome. -/
def NewDriver (w : World) (region profile : String) : InitOutcome × FS × Nat :=
  if !(IsValidRegion region) then
    (InitOutcome.err ("invalid region \x27" ++ region ++ "\x27 provided"), w.fs, 0)
  else
    initAWSSession w region profile

/-- Boolean test: is pat a prefix of s (on character lists)? -/
def charsLeadWith : List Char → List Char → Bool
  | [], _ => true
  | _ :: _, [] => false
  | a :: as, b :: bs => a = b && charsLeadWith as bs

/-- Boolean test: does pat occur contiguously inside the list? -/
def charsOccur (pat : List Char) : List Char → Bool
  | [] => charsLeadWith pat []
  | c :: rest => charsLeadWith pat (c :: rest) || charsOccur pat rest

/-- Boolean substring test on strings. -/
def strContains (s pat : String) : Bool :=
  charsOccur pat.data s.data

/-- The registry holding exactly the nine domain services of one
generation, in the assignment order of init.go:65-73. -/
def nineRegistry (g : Nat) : Registry :=
  [("infra", ⟨"infra", g⟩), ("access", ⟨"access", g⟩),
   ("storage", ⟨"storage", g⟩), ("messaging", ⟨"messaging", g⟩),
   ("dns", ⟨"dns", g⟩), ("lambda", ⟨"lambda", g⟩),
   ("monitoring", ⟨"monitoring", g⟩), ("cdn", ⟨"cdn", g⟩),
   ("cloudformation", ⟨"cloudformation", g⟩)]

/-- A concrete credential snapshot used in witnesses. -/
def cred0 : CredValue :=
  { accessKeyID := "AKIAEXAMPLE", secretAccessKey := "wJalrExample",
    sessionToken := "", providerName := "EnvProvider" }

/-- A second, distinct concrete credential snapshot used in witnesses. -/
def cred1 : CredValue :=
  { accessKeyID := "AKIAOTHER", secretAccessKey := "otherSecret",
    sessionToken := "tok", providerName := "SharedConfigProvider" }

/-- A concrete cache root used in witnesses. -/
def cacheRoot : String := "/home/user/.awless/cache"

/-- The empty filesystem with no fault injection. -/
def fsEmpty : FS := { files := [], dirs := [], readFails := false, writeFails := false }

/-- A filesystem whose cache file holds the well-formed encoding of
cred0. -/
def fsHit : FS :=
  { files := [(credPathOf cacheRoot, JsonContent.credJson cred0, 0o600)],
    dirs := [(credFolderOf cacheRoot, 0o700)],
    readFails := false, writeFails := false }

/-- A filesystem whose cache file holds malformed bytes. -/
def fsMalformed : FS :=
  { files := [(credPathOf cacheRoot, JsonContent.malformed ("not json"), 0o600)],
    dirs := [(credFolderOf cacheRoot, 0o700)],
    readFails := false, writeFails := false }

/-- The empty filesystem on which writes fail. -/
def fsWriteFail : FS := { files := [], dirs := [], readFails := false, writeFails := true }

/-- A world with the cache root unset, a succeeding provider and a
succeeding SDK session construction. -/
def w0 : World :=
  { cacheEnv := "", fs := fsEmpty, provider := (cred0, none), newSessionErr := none }

/-- A world in which the underlying credential chain fails. -/
def wAuthFail : World :=
  { cacheEnv := "", fs := fsEmpty,
    provider := (default, some ("NoCredentialProviders: no valid providers in chain")),
    newSessionErr := none }

/-- A world in which session construction itself fails (the SDK returns a
nil session and an error). -/
def wSessErr : World :=
  { cacheEnv := "", fs := fsEmpty, provider := (cred0, none),
    newSessionErr := some ("shared config profile not found") }

/-- A concrete provider-chain failure message used in witnesses. -/
def errNoCreds : String := "NoCredentialProviders: no valid providers in chain"

/-- A concrete valid configuration used in witnesses. -/
def confValid : AwsConf := { region := "us-east-1", profile := "default" }

/-- The session a successful bootstrap of confValid in w0 returns. -/
def sessValid : Session :=
  { region := "us-east-1", profile := "default",
    httpClient := HTTPClient.defaultClient, credsWrapped := true }

/-- The session as freshly constructed by the SDK for confValid, before
validation succeeds. -/
def sessFresh : Session :=
  { region := "us-east-1", profile := "default",
    httpClient := HTTPClient.timeoutClient 2, credsWrapped := false }

/-- A concrete configuration with an empty region. -/
def confEmpty : AwsConf := { region := "", profile := "default" }

/-- A concrete configuration whose region fails the static validity
check. -/
def confBadRegion : AwsConf := { region := "not-a-real-region", profile := "default" }

/-- The session a bootstrap of confBadRegion in w0 returns. -/
def sessBadRegion : Session :=
  { region := "not-a-real-region", profile := "default",
    httpClient := HTTPClient.defaultClient, credsWrapped := true }

/-! ## Helper lemmas -/

lemma mkdirStep_files (fs : FS) (p : String) : ((mkdirStep fs p).1).files = fs.files := by
  unfold mkdirStep; split <;> rfl

lemma mkdirStep_readFails (fs : FS) (p : String) :
    ((mkdirStep fs p).1).readFails = fs.readFails := by
  unfold mkdirStep; split <;> rfl

lemma mkdirStep_writeFails (fs : FS) (p : String) :
    ((mkdirStep fs p).1).writeFails = fs.writeFails := by
  unfold mkdirStep; split <;> rfl

lemma retrieve_hit_ok (cache : String) (fs : FS) (creds : CredValue × Option String)
    (v : CredValue) (perm : Nat)
    (hc : cache ≠ "") (hr : fs.readFails = false)
    (hf : fsLookup fs.files (credPathOf cache) = some (JsonContent.credJson v, perm)) :
    FileCacheProvider.Retrieve cache fs creds =
      ((v, none), (mkdirStep fs (credFolderOf cache)).1,
        (mkdirStep fs (credFolderOf cache)).2 ++
          [FsOp.statFile (credPathOf cache), FsOp.readFile (credPathOf cache)], 0) := by
  simp only [credPathOf, credFolderOf] at hf ⊢
  unfold FileCacheProvider.Retrieve
  rw [if_neg hc]
  simp only [mkdirStep_files, mkdirStep_readFails, hf, hr, jsonUnmarshal]
  rfl

lemma retrieve_hit_malformed (cache : String) (fs : FS)
    (creds : CredValue × Option String) (bytes : String) (perm : Nat)
    (hc : cache ≠ "") (hr : fs.readFails = false)
    (hf : fsLookup fs.files (credPathOf cache) = some (JsonContent.malformed bytes, perm)) :
    FileCacheProvider.Retrieve cache fs creds =
      ((default, some ("invalid character in JSON credential cache")),
        (mkdirStep fs (credFolderOf cache)).1,
        (mkdirStep fs (credFolderOf cache)).2 ++
          [FsOp.statFile (credPathOf cache), FsOp.readFile (credPathOf cache)], 0) := by
  simp only [credPathOf, credFolderOf] at hf ⊢
  unfold FileCacheProvider.Retrieve
  rw [if_neg hc]
  simp only [mkdirStep_files, mkdirStep_readFails, hf, hr, jsonUnmarshal]
  rfl

lemma retrieve_miss_provider_err (cache : String) (fs : FS) (v : CredValue) (e : String)
    (hc : cache ≠ "")
    (hm : fsLookup fs.files (credPathOf cache) = none) :
    FileCacheProvider.Retrieve cache fs (v, some e) =
      ((v, some e), (mkdirStep fs (credFolderOf cache)).1,
        (mkdirStep fs (credFolderOf cache)).2 ++ [FsOp.statFile (credPathOf cache)], 1) := by
  simp only [credPathOf, credFolderOf] at hm ⊢
  unfold FileCacheProvider.Retrieve
  rw [if_neg hc]
  simp only [mkdirStep_files, hm]

lemma retrieve_miss_write_ok (cache : String) (fs : FS) (v : CredValue)
    (hc : cache ≠ "") (hw : fs.writeFails = false)
    (hm : fsLookup fs.files (credPathOf cache) = none) :
    FileCacheProvider.Retrieve cache fs (v, none) =
      ((v, none),
        { (mkdirStep fs (credFolderOf cache)).1 with
            files := (credPathOf cache, JsonContent.credJson v, 0o600) :: fs.files },
        (mkdirStep fs (credFolderOf cache)).2 ++
          [FsOp.statFile (credPathOf cache), FsOp.writeFile (credPathOf cache)], 1) := by
  simp only [credPathOf, credFolderOf] at hm ⊢
  unfold FileCacheProvider.Retrieve
  rw [if_neg hc]
  simp only [mkdirStep_files, mkdirStep_writeFails, hm, hw, jsonMarshal]
  rfl

lemma retrieve_miss_write_fail (cache : String) (fs : FS) (v : CredValue)
    (hc : cache ≠ "") (hw : fs.writeFails = true)
    (hm : fsLookup fs.files (credPathOf cache) = none) :
    FileCacheProvider.Retrieve cache fs (v, none) =
      ((v, some ("cache file write error")), (mkdirStep fs (credFolderOf cache)).1,
        (mkdirStep fs (credFolderOf cache)).2 ++
          [FsOp.statFile (credPathOf cache), FsOp.writeFile (credPathOf cache)], 1) := by
  simp only [credPathOf, credFolderOf] at hm ⊢
  unfold FileCacheProvider.Retrieve
  rw [if_neg hc]
  simp only [mkdirStep_files, mkdirStep_writeFails, hm, hw, jsonMarshal]
  rfl

/-! ## Claim theorems -/

/-- Claim C3: with the cache-root environment variable unset, Retrieve
delegates directly to the underlying provider, returns its result (value
or error) unmodified, performs no filesystem operation whatsoever, and
invokes the provider exactly once. -/
theorem c3_unset_cache_root_bypasses_filesystem
    (fs : FS) (creds : CredValue × Option String) :
    FileCacheProvider.Retrieve ("") fs creds = (creds, fs, [], 1) := rfl

/-- Claim C2: with the cache root set and the cache file present holding a
snapshot, Retrieve returns that snapshot with no error and without
invoking the underlying provider (no expiry check exists on this path);
consequently a snapshot written by a previous Retrieve is returned equal
on the next Retrieve, whatever the provider would now return, again
without invoking the provider. -/
theorem c2_cache_hit_serves_snapshot_and_roundtrip :
    (∀ (cache : String) (fs : FS) (creds : CredValue × Option String)
        (v : CredValue) (perm : Nat),
      cache ≠ "" → fs.readFails = false →
      fsLookup fs.files (credPathOf cache) = some (JsonContent.credJson v, perm) →
      (FileCacheProvider.Retrieve cache fs creds).1 = (v, none) ∧
      (FileCacheProvider.Retrieve cache fs creds).2.2.2 = 0) ∧
    (∀ (cache : String) (fs : FS) (v : CredValue) (creds2 : CredValue × Option String),
      cache ≠ "" → fs.readFails = false → fs.writeFails = false →
      fsLookup fs.files (credPathOf cache) = none →
      (FileCacheProvider.Retrieve cache fs (v, none)).1 = (v, none) ∧
      (FileCacheProvider.Retrieve cache
        ((FileCacheProvider.Retrieve cache fs (v, none)).2.1) creds2).1 = (v, none) ∧
      (FileCacheProvider.Retrieve cache
        ((FileCacheProvider.Retrieve cache fs (v, none)).2.1) creds2).2.2.2 = 0) := by
  constructor
  · intro cache fs creds v perm hc hr hf
    rw [retrieve_hit_ok cache fs creds v perm hc hr hf]
    exact ⟨rfl, rfl⟩
  · intro cache fs v creds2 hc hr hw hm
    have hr2 : ({ (mkdirStep fs (credFolderOf cache)).1 with
        files := (credPathOf cache, JsonContent.credJson v, 0o600) :: fs.files } : FS).readFails
        = false := by
      simpa [mkdirStep_readFails] using hr
    have hf2 : fsLookup ({ (mkdirStep fs (credFolderOf cache)).1 with
        files := (credPathOf cache, JsonContent.credJson v, 0o600) :: fs.files } : FS).files
        (credPathOf cache) = some (JsonContent.credJson v, 0o600) := by
      simp [fsLookup]
    have h2 := retrieve_hit_ok cache _ creds2 v 0o600 hc hr2 hf2
    rw [retrieve_miss_write_ok cache fs v hc hw hm]
    dsimp only
    rw [h2]
    exact ⟨rfl, rfl, rfl⟩

/-- Witness for claim C2 at concrete inputs: a filesystem already holding
the snapshot cred0 serves it with zero provider calls, and an empty
filesystem acquires cred0 from the provider once, after which a second
Retrieve serves cred0 from the file even though the provider would now
return cred1. -/
theorem c2_cache_hit_serves_snapshot_and_roundtrip_witness :
    ((FileCacheProvider.Retrieve cacheRoot fsHit (cred1, none)).1 = (cred0, none) ∧
     (FileCacheProvider.Retrieve cacheRoot fsHit (cred1, none)).2.2.2 = 0) ∧
    ((FileCacheProvider.Retrieve cacheRoot fsEmpty (cred0, none)).1 = (cred0, none) ∧
     (FileCacheProvider.Retrieve cacheRoot
       ((FileCacheProvider.Retrieve cacheRoot fsEmpty (cred0, none)).2.1)
       (cred1, none)).1 = (cred0, none) ∧
     (FileCacheProvider.Retrieve cacheRoot
       ((FileCacheProvider.Retrieve cacheRoot fsEmpty (cred0, none)).2.1)
       (cred1, none)).2.2.2 = 0) :=
  ⟨c2_cache_hit_serves_snapshot_and_roundtrip.1 cacheRoot fsHit (cred1, none) cred0 0o600
      (by decide) (by decide) (by decide),
   c2_cache_hit_serves_snapshot_and_roundtrip.2 cacheRoot fsEmpty cred0 (cred1, none)
      (by decide) (by decide) (by decide) (by decide)⟩

/-- Claim C4: with the cache root set and the cache file absent, a
successful provider acquisition is JSON-encoded and written to the cache
file with owner-only permissions (0o600) and the fresh snapshot is
returned with no error; if the write fails, the fresh snapshot is still
returned, together with the surfaced write error — the acquisition is not
rolled back. The provider is invoked exactly once in both cases. -/
theorem c4_fresh_acquisition_written_and_surfaced
    (cache : String) (fs : FS) (v : CredValue)
    (hc : cache ≠ "")
    (hm : fsLookup fs.files (credPathOf cache) = none) :
    (fs.writeFails = false →
      (FileCacheProvider.Retrieve cache fs (v, none)).1 = (v, none) ∧
      fsLookup ((FileCacheProvider.Retrieve cache fs (v, none)).2.1).files (credPathOf cache) =
        some (JsonContent.credJson v, 0o600) ∧
      (FileCacheProvider.Retrieve cache fs (v, none)).2.2.2 = 1) ∧
    (fs.writeFails = true →
      (FileCacheProvider.Retrieve cache fs (v, none)).1 = (v, some ("cache file write error")) ∧
      (FileCacheProvider.Retrieve cache fs (v, none)).2.2.2 = 1) := by
  constructor
  · intro hw
    rw [retrieve_miss_write_ok cache fs v hc hw hm]
    refine ⟨rfl, ?_, rfl⟩
    simp [fsLookup]
  · intro hw
    rw [retrieve_miss_write_fail cache fs v hc hw hm]
    exact ⟨rfl, rfl⟩

/-- Witness for claim C4 at concrete inputs: on an empty filesystem the
acquired snapshot cred0 is returned and written at 0o600, and on a
filesystem whose writes fail the snapshot is still returned together with
the write error. -/
theorem c4_fresh_acquisition_written_and_surfaced_witness :
    ((FileCacheProvider.Retrieve cacheRoot fsEmpty (cred0, none)).1 = (cred0, none) ∧
     fsLookup ((FileCacheProvider.Retrieve cacheRoot fsEmpty (cred0, none)).2.1).files
       (credPathOf cacheRoot) = some (JsonContent.credJson cred0, 0o600) ∧
     (FileCacheProvider.Retrieve cacheRoot fsEmpty (cred0, none)).2.2.2 = 1) ∧
    ((FileCacheProvider.Retrieve cacheRoot fsWriteFail (cred0, none)).1 =
       (cred0, some ("cache file write error")) ∧
     (FileCacheProvider.Retrieve cacheRoot fsWriteFail (cred0, none)).2.2.2 = 1) :=
  ⟨(c4_fresh_acquisition_written_and_surfaced cacheRoot fsEmpty cred0
      (by decide) (by decide)).1 (by decide),
   (c4_fresh_acquisition_written_and_surfaced cacheRoot fsWriteFail cred0
      (by decide) (by decide)).2 (by decide)⟩

/-- Claim C5: with the cache root set and the cache file present but
holding invalid JSON, Retrieve fails with the decode error and the
underlying provider is not invoked (no fallback), whatever the provider
would return. -/
theorem c5_corrupt_cache_decode_error_no_fallback
    (cache : String) (fs : FS) (creds : CredValue × Option String)
    (bytes : String) (perm : Nat)
    (hc : cache ≠ "") (hr : fs.readFails = false)
    (hf : fsLookup fs.files (credPathOf cache) = some (JsonContent.malformed bytes, perm)) :
    (FileCacheProvider.Retrieve cache fs creds).1.2 =
      some ("invalid character in JSON credential cache") ∧
    (FileCacheProvider.Retrieve cache fs creds).2.2.2 = 0 := by
  rw [retrieve_hit_malformed cache fs creds bytes perm hc hr hf]
  exact ⟨rfl, rfl⟩

/-- Witness for claim C5 at concrete inputs: a malformed cache file yields
the decode error with zero provider calls even though the provider would
succeed with cred1. -/
theorem c5_corrupt_cache_decode_error_no_fallback_witness :
    (FileCacheProvider.Retrieve cacheRoot fsMalformed (cred1, none)).1.2 =
      some ("invalid character in JSON credential cache") ∧
    (FileCacheProvider.Retrieve cacheRoot fsMalformed (cred1, none)).2.2.2 = 0 :=
  c5_corrupt_cache_decode_error_no_fallback cacheRoot fsMalformed (cred1, none)
    ("not json") 0o600 (by decide) (by decide) (by decide)

/-- Claim C10: with the cache root set and the cache file absent, a failed
provider acquisition returns the provider error, writes no cache file, and
leaves the file contents of the filesystem unchanged — the only possible
filesystem change is the creation of the credentials directory. -/
theorem c10_provider_failure_writes_nothing
    (cache : String) (fs : FS) (v : CredValue) (e : String)
    (hc : cache ≠ "")
    (hm : fsLookup fs.files (credPathOf cache) = none) :
    (FileCacheProvider.Retrieve cache fs (v, some e)).1 = (v, some e) ∧
    ((FileCacheProvider.Retrieve cache fs (v, some e)).2.1).files = fs.files ∧
    (FileCacheProvider.Retrieve cache fs (v, some e)).2.1 =
      (mkdirStep fs (credFolderOf cache)).1 := by
  rw [retrieve_miss_provider_err cache fs v e hc hm]
  exact ⟨rfl, mkdirStep_files fs _, rfl⟩

/-- Witness for claim C10 at concrete inputs: a provider failure on an
empty filesystem propagates the error and leaves the file list empty. -/
theorem c10_provider_failure_writes_nothing_witness :
    (FileCacheProvider.Retrieve cacheRoot fsEmpty (default, some errNoCreds)).1 =
      ((default : CredValue), some errNoCreds) ∧
    ((FileCacheProvider.Retrieve cacheRoot fsEmpty (default, some errNoCreds)).2.1).files =
      fsEmpty.files ∧
    (FileCacheProvider.Retrieve cacheRoot fsEmpty (default, some errNoCreds)).2.1 =
      (mkdirStep fsEmpty (credFolderOf cacheRoot)).1 :=
  c10_provider_failure_writes_nothing cacheRoot fsEmpty default errNoCreds
    (by decide) (by decide)

/-- Claim C6: whenever the eager credential validation fetch fails, the
returned user-facing error is exactly the message of init.go:127, which
names both required environment variables (AWS_ACCESS_KEY_ID and
AWS_SECRET_ACCESS_KEY) and points to the installation documentation. -/
theorem c6_auth_failure_message_guidance
    (w : World) (region profile : String) (e : String)
    (hs : w.newSessionErr = none)
    (hget : (FileCacheProvider.Retrieve w.cacheEnv w.fs w.provider).1.2 = some e) :
    (initAWSSession w region profile).1 = InitOutcome.err credsUndefinedMsg ∧
    strContains credsUndefinedMsg ("AWS_ACCESS_KEY_ID") = true ∧
    strContains credsUndefinedMsg ("AWS_SECRET_ACCESS_KEY") = true ∧
    strContains credsUndefinedMsg ("https://github.com/wallix/awless/wiki/Installation") = true := by
  refine ⟨?_, by decide, by decide, by decide⟩
  rcases hR : FileCacheProvider.Retrieve w.cacheEnv w.fs w.provider with ⟨⟨v, ge⟩, fsx, ops, calls⟩
  rw [hR] at hget
  dsimp only at hget
  subst hget
  simp [initAWSSession, NewSessionWithOptions, hs, hR]

/-- Witness for claim C6 at concrete inputs: in a world whose credential
chain fails, the bootstrap for region us-east-1 returns the guidance
message. -/
theorem c6_auth_failure_message_guidance_witness :
    (initAWSSession wAuthFail ("us-east-1") ("default")).1 = InitOutcome.err credsUndefinedMsg ∧
    strContains credsUndefinedMsg ("AWS_ACCESS_KEY_ID") = true ∧
    strContains credsUndefinedMsg ("AWS_SECRET_ACCESS_KEY") = true ∧
    strContains credsUndefinedMsg ("https://github.com/wallix/awless/wiki/Installation") = true :=
  c6_auth_failure_message_guidance wAuthFail ("us-east-1") ("default") errNoCreds
    (by decide) (by decide)

/-- Claim C7: the session as constructed by the SDK carries the 2-second
short-timeout transport; every successful bootstrap returns a session
whose transport has been swapped to the unbounded default client; and on
validation failure no session is returned at all — an error is returned
instead, so the transport is never swapped on that path. -/
theorem c7_transport_swap_on_success_only
    (w : World) (region profile : String) :
    (∀ (sess : Session) (e2 : Option String),
      NewSessionWithOptions w region profile = (some sess, e2) →
      sess.httpClient = HTTPClient.timeoutClient 2) ∧
    (∀ (sess : Session) (fs1 : FS) (n : Nat),
      initAWSSession w region profile = (InitOutcome.ok sess, fs1, n) →
      sess.httpClient = HTTPClient.defaultClient) ∧
    (∀ (e : String), w.newSessionErr = none →
      (FileCacheProvider.Retrieve w.cacheEnv w.fs w.provider).1.2 = some e →
      (initAWSSession w region profile).1 = InitOutcome.err credsUndefinedMsg) := by
  refine ⟨?_, ?_, ?_⟩
  · intro sess e2 h
    cases hN : w.newSessionErr with
    | some e => rw [NewSessionWithOptions, hN] at h; simp at h
    | none =>
      rw [NewSessionWithOptions, hN] at h
      simp only [Prod.mk.injEq, Option.some.injEq] at h
      rw [← h.1]
  · intro sess fs1 n h
    cases hN : w.newSessionErr with
    | some e => simp [initAWSSession, NewSessionWithOptions, hN] at h
    | none =>
      rcases hR : FileCacheProvider.Retrieve w.cacheEnv w.fs w.provider with
        ⟨⟨v, ge⟩, fsx, ops, calls⟩
      cases ge with
      | some e => simp [initAWSSession, NewSessionWithOptions, hN, hR] at h
      | none =>
        simp only [initAWSSession, NewSessionWithOptions, hN, hR,
          Prod.mk.injEq, InitOutcome.ok.injEq] at h
        rw [← h.1]
  · intro e hs hget
    rcases hR : FileCacheProvider.Retrieve w.cacheEnv w.fs w.provider with
      ⟨⟨v, ge⟩, fsx, ops, calls⟩
    rw [hR] at hget
    dsimp only at hget
    subst hget
    simp [initAWSSession, NewSessionWithOptions, hs, hR]

/-- Witness for claim C7 at concrete inputs: the freshly constructed
session carries the 2-second timeout client, the successfully bootstrapped
session carries the default client, and an auth failure yields the error
outcome instead of a session. -/
theorem c7_transport_swap_on_success_only_witness :
    sessFresh.httpClient = HTTPClient.timeoutClient 2 ∧
    sessValid.httpClient = HTTPClient.defaultClient ∧
    (initAWSSession wAuthFail ("us-east-1") ("default")).1 = InitOutcome.err credsUndefinedMsg :=
  ⟨(c7_transport_swap_on_success_only w0 ("us-east-1") ("default")).1 sessFresh none (by decide),
   (c7_transport_swap_on_success_only w0 ("us-east-1") ("default")).2.1 sessValid fsEmpty 1
     (by decide),
   (c7_transport_swap_on_success_only wAuthFail ("us-east-1") ("default")).2.2 errNoCreds
     (by decide) (by decide)⟩

/-- Claim C9: when session construction returns an error (the SDK hands
back a nil session together with the error), initAWSSession hits the nil
dereference at the credential-wrapping assignment (init.go:118) before the
error check (init.go:122) is reached: the outcome is the dereference
fault, not a clean return of the construction error. -/
theorem c9_nil_session_deref_before_error_check
    (w : World) (region profile : String) (e : String)
    (hs : w.newSessionErr = some e) :
    (initAWSSession w region profile).1 = InitOutcome.nilDeref ∧
    (initAWSSession w region profile).1 ≠ InitOutcome.err e := by
  constructor <;> simp [initAWSSession, NewSessionWithOptions, hs]

/-- Witness for claim C9 at concrete inputs: a world whose session
construction fails makes the bootstrap hit the nil dereference instead of
returning the construction error. -/
theorem c9_nil_session_deref_before_error_check_witness :
    (initAWSSession wSessErr ("us-east-1") ("default")).1 = InitOutcome.nilDeref ∧
    (initAWSSession wSessErr ("us-east-1") ("default")).1 ≠
      InitOutcome.err ("shared config profile not found") :=
  c9_nil_session_deref_before_error_check wSessErr ("us-east-1") ("default")
    ("shared config profile not found") (by decide)

/-- Counterexample to claim C1 as stated: with the statically invalid
region "not-a-real-region", InitServices does not fail at all — the
bootstrap succeeds and the underlying credential provider is invoked
exactly once, because the only region check on this path is the
empty-string test of init.go:46 and initAWSSession itself performs no
region validation. -/
theorem c1_counterexample_invalid_region_reaches_provider :
    (InitServices w0 confBadRegion 0 []).2.2.1 = 1 ∧
    (InitServices w0 confBadRegion 0 []).1 = InitOutcome.ok sessBadRegion ∧
    IsValidRegion ("not-a-real-region") = false := by decide

/-- Claim C1 (amended): InitServices rejects an empty region with a
configuration error before any provider retrieval (zero provider
invocations), and NewDriver rejects a region failing the static validity
check before any provider retrieval; but initAWSSession itself performs no
region validation, so on the InitServices path a non-empty invalid region
reaches the underlying provider (see the counterexample). -/
theorem c1_amended_region_validation_split
    (w : World) (profile : String) (g : Nat) (reg : Registry) (region : String)
    (hinv : IsValidRegion region = false) :
    InitServices w { region := "", profile := profile } g reg =
      (InitOutcome.err ("empty AWS region. Set it with `awless config set aws.region`"),
        w.fs, 0, reg) ∧
    NewDriver w region profile =
      (InitOutcome.err ("invalid region \x27" ++ region ++ "\x27 provided"), w.fs, 0) := by
  refine ⟨rfl, ?_⟩
  simp [NewDriver, hinv]

/-- Witness for the amended claim C1 at concrete inputs: an empty region
is rejected by InitServices and the invalid region "not-a-real-region" is
rejected by NewDriver, both with zero provider invocations. -/
theorem c1_amended_region_validation_split_witness :
    InitServices w0 { region := "", profile := "default" } 0 [] =
      (InitOutcome.err ("empty AWS region. Set it with `awless config set aws.region`"),
        w0.fs, 0, []) ∧
    NewDriver w0 ("not-a-real-region") ("default") =
      (InitOutcome.err ("invalid region \x27" ++ "not-a-real-region" ++ "\x27 provided"),
        w0.fs, 0) :=
  c1_amended_region_validation_split w0 ("default") 0 [] ("not-a-real-region") (by decide)

/-- Claim C8: every pair of successful InitServices calls leaves the
registry holding exactly the nine freshly constructed services of the
later call, each keyed by its declared name: the first call on an empty
registry produces exactly the nine generation-g1 entries, and the second
call replaces all nine with generation-g2 entries, leaving no stale entry
from the first call under any key. -/
theorem c8_registry_exactly_nine_and_overwrite
    (w1 w2 : World) (conf : AwsConf) (g1 g2 : Nat) (s1 s2 : Session)
    (fsa fsb : FS) (n1 n2 : Nat) (r1 r2 : Registry)
    (h1 : InitServices w1 conf g1 [] = (InitOutcome.ok s1, fsa, n1, r1))
    (h2 : InitServices w2 conf g2 r1 = (InitOutcome.ok s2, fsb, n2, r2)) :
    r1 = nineRegistry g1 ∧ r2 = nineRegistry g2 := by
  have e1 : r1 = nineRegistry g1 := by
    simp only [InitServices] at h1
    split at h1
    · simp at h1
    · split at h1
      · simp at h1
      · simp at h1
      · simp only [Prod.mk.injEq] at h1
        rw [← h1.2.2.2]
        simp [mapSet, NewAccess, NewInfra, NewStorage, NewMessaging, NewDns,
          NewLambda, NewMonitoring, NewCdn, NewCloudformation, nineRegistry]
  refine ⟨e1, ?_⟩
  rw [e1] at h2
  simp only [InitServices] at h2
  split at h2
  · simp at h2
  · split at h2
    · simp at h2
    · simp at h2
    · simp only [Prod.mk.injEq] at h2
      rw [← h2.2.2.2]
      simp [mapSet, NewAccess, NewInfra, NewStorage, NewMessaging, NewDns,
        NewLambda, NewMonitoring, NewCdn, NewCloudformation, nineRegistry]

/-- Witness for claim C8 at concrete inputs: two successful InitServices
calls in world w0 with generations 0 and 1 produce exactly the nine
entries of each generation. -/
theorem c8_registry_exactly_nine_and_overwrite_witness :
    nineRegistry 0 = nineRegistry 0 ∧ nineRegistry 1 = nineRegistry 1 :=
  c8_registry_exactly_nine_and_overwrite w0 w0 confValid 0 1 sessValid sessValid
    fsEmpty fsEmpty 1 1 (nineRegistry 0) (nineRegistry 1) (by decide) (by decide)

end Awless
